import Mathlib

/-!
Verification of the SOC encoder/decoder board client (src/SOC.py) against its
natural-language specification.  The Python module is shallowly embedded below:
pure string manipulation is translated to executable Lean functions on `String`
and `List Char`, Python exceptions become `Except`/`Option` error channels, and
the two effectful entry points (register writes and the discovery scan) are
modelled by explicit effect lists resp. by a step function over the finite
trace of receive events observed by the scan loop.  Python `bytes` payloads are
ASCII here and are modelled as `String` (the NUL terminator byte is the
character `\x00`).
-/

namespace SOC

/-! ## Models of the Python string primitives used by SOC.py -/

/-- Whitespace recognised by Python `str.split()` (ASCII fragment). -/
def isPyWs (c : Char) : Bool :=
  c = ' ' || c = '\t' || c = '\n' || c = '\r' || c = '\x0b' || c = '\x0c'

/-- Python `str.strip(chars)`: remove the characters of `set` from both ends. -/
def pyStripList (set : List Char) (cs : List Char) : List Char :=
  ((cs.dropWhile (fun c => set.contains c)).reverse.dropWhile
    (fun c => set.contains c)).reverse

/-- Python `str.strip(chars)` on a `String`. -/
def pyStrip (s : String) (set : List Char) : String :=
  String.mk (pyStripList set s.data)

/-- Worker for Python `str.split()`: split on runs of whitespace, no empty
tokens; `acc` holds the characters of the current token, reversed. -/
def splitWsAux : List Char → List Char → List String
  | [], acc => if acc.isEmpty then [] else [String.mk acc.reverse]
  | c :: cs, acc =>
    if isPyWs c then
      if acc.isEmpty then splitWsAux cs []
      else String.mk acc.reverse :: splitWsAux cs []
    else splitWsAux cs (c :: acc)

/-- Python `str.split()` (no separator argument). -/
def pySplitWs (s : String) : List String :=
  splitWsAux s.data []

/-- Worker for Python's substring test `needle in hay`. -/
def containsAux (needle : List Char) : List Char → Bool
  | [] => needle.isEmpty
  | c :: rest => needle.isPrefixOf (c :: rest) || containsAux needle rest

/-- Python `needle in hay` for strings (substring containment). -/
def strContains (needle hay : String) : Bool :=
  containsAux needle.data hay.data

/-- Python `str.isdigit()` (ASCII fragment): nonempty and all decimal digits. -/
def pyIsDigit (s : String) : Bool :=
  !s.data.isEmpty && s.data.all Char.isDigit

/-- Membership in Python's `string.hexdigits`. -/
def isHexDig (c : Char) : Bool :=
  c.isDigit || ('a' ≤ c && c ≤ 'f') || ('A' ≤ c && c ≤ 'F')

/-- Numeric value of one hex digit (valid for characters passing `isHexDig`). -/
def hexDigVal (c : Char) : Nat :=
  if c.isDigit then c.toNat - 48
  else if 'a' ≤ c && c ≤ 'f' then c.toNat - 87
  else c.toNat - 55

/-- Fold a hex-digit list into its value, starting from accumulator `a`. -/
def hexValFrom (a : Nat) (cs : List Char) : Nat :=
  cs.foldl (fun x c => 16 * x + hexDigVal c) a

/-- Value of a hex-digit list (most significant digit first). -/
def hexValList (cs : List Char) : Nat := hexValFrom 0 cs

/-- Value of a hex string, as computed by Python `int(s, 16)` on valid input. -/
def hexVal (s : String) : Nat := hexValList s.data

/-- Value of a decimal string, as computed by Python `int(s)` on valid input. -/
def decValList (cs : List Char) : Nat :=
  cs.foldl (fun x c => 10 * x + (c.toNat - 48)) 0

/-- Python `int(s, 16)` restricted to the payloads this protocol can see:
defined exactly on nonempty strings of hex digits (Python would additionally
accept signs, an `0x` prefix, underscores and surrounding whitespace; no such
payload appears on this wire).  Returns `none` where Python raises
`ValueError`. -/
def pyInt16 (s : String) : Option Nat :=
  if !s.data.isEmpty && s.data.all isHexDig then some (hexValList s.data)
  else none

/-- Uppercase hex digit for `n < 16`, as produced by Python's `"%X"`. -/
def hexDigitUpper (n : Nat) : Char :=
  if n < 10 then Char.ofNat (48 + n) else Char.ofNat (55 + n)

/-- Fuelled worker producing the uppercase hex digits of `n`, most significant
first (fuel is structural; `fuel > n` always suffices). -/
def hexCharsAux : Nat → Nat → List Char
  | 0, _ => []
  | fuel + 1, n =>
    if n < 16 then [hexDigitUpper n]
    else hexCharsAux fuel (n / 16) ++ [hexDigitUpper (n % 16)]

/-- Uppercase hex digits of `n`, no padding ("0" for zero). -/
def hexChars (n : Nat) : List Char := hexCharsAux (n + 1) n

/-- Python format `f"{n:0wX}"`: uppercase hex, zero-padded on the left to
`width` (longer if the number needs more digits). -/
def pyHexUpper (width n : Nat) : String :=
  String.mk (List.replicate (width - (hexChars n).length) '0' ++ hexChars n)

/-- Python slice `s[:-1]`: all but the last character. -/
def pyDropLast (s : String) : String := String.mk s.data.dropLast

/-! ## Result and error types

`PyVal` reflects the dynamic return type of `_parse_udp_response`, which
returns an `int` on the two numeric paths and falls through to returning the
raw token string otherwise.  `PyErr` gathers the exceptions the embedded code
can raise. -/

inductive PyVal where
  | int (n : Nat)
  | str (s : String)
deriving DecidableEq

inductive PyErr where
  | invalidResponse
  | valueError
  | indexError
  | socketError
  | writeVerification (wrote readBack : Nat)
deriving DecidableEq

/-! ## Message codec (SOC.py lines 63-76) -/

/-- `SOCBoard._create_udp_message` (line 65): the f-string
`f"{{GAPI {space:02X} 2 {command} {addr:02X} {value:04X}}}\0"`, i.e. the
bracketed request followed by a NUL terminator byte. -/
def create_udp_message (register_space : Nat) (command : String)
    (register_address : Nat) (value : Nat := 0) : String :=
  "\x7bGAPI " ++ pyHexUpper 2 register_space ++ " 2 " ++ command ++ " "
    ++ pyHexUpper 2 register_address ++ " " ++ pyHexUpper 4 value ++ "\x7d\x00"

/-- The strip set `"{}\0"` used by `_parse_udp_response` (line 68). -/
def responseStripChars : List Char := ['{', '}', '\x00']

/-- The five-way validation condition of `_parse_udp_response` (line 69):
`len(parts) != 5 or "GAPI" not in parts[0] or parts[1] != f"{space:02X}" or
parts[2] != "1" or parts[3] != f"{addr:02X}"`.  Python only evaluates
`parts[i]` after the length test has passed, so `getD` with a default is
faithful. -/
def invalidResponseCheck (parts : List String)
    (expected_register_space expected_register_address : Nat) : Bool :=
  parts.length != 5
    || !strContains "GAPI" (parts.getD 0 "")
    || parts.getD 1 "" != pyHexUpper 2 expected_register_space
    || parts.getD 2 "" != "1"
    || parts.getD 3 "" != pyHexUpper 2 expected_register_address

/-- Lines 71-76 of `_parse_udp_response`: `processed = parts[4][:-1]`, then
return `int(processed)` if it is all decimal digits, else `int(processed, 16)`
if all hex digits — which raises `ValueError` when `processed` is empty, i.e.
when `parts[4]` was a single character — else the string itself. -/
def parse_value_token (token : String) : Except PyErr PyVal :=
  if pyIsDigit (pyDropLast token) then
    Except.ok (PyVal.int (decValList (pyDropLast token).data))
  else if (pyDropLast token).data.all isHexDig then
    if (pyDropLast token).data.isEmpty then Except.error PyErr.valueError
    else Except.ok (PyVal.int (hexValList (pyDropLast token).data))
  else Except.ok (PyVal.str (pyDropLast token))

/-- `SOCBoard._parse_udp_response` (lines 67-76): strip `"{}\0"`, split on
whitespace, run the five-way validation, then parse the value token. -/
def parse_udp_response (response : String)
    (expected_register_space expected_register_address : Nat) :
    Except PyErr PyVal :=
  if invalidResponseCheck (pySplitWs (pyStrip response responseStripChars))
      expected_register_space expected_register_address then
    Except.error PyErr.invalidResponse
  else
    parse_value_token ((pySplitWs (pyStrip response responseStripChars)).getD 4 "")

/-- The request datagram built by `SOCBoard.read_register` (line 79): an `R`
command with the default value `0`. -/
def read_register_request (register_space register_address : Nat) : String :=
  create_udp_message register_space "R" register_address

/-- `SOCBoard.read_register` (lines 78-82) with the received datagram made an
explicit argument: send the `R` request, receive `response`, parse it. -/
def read_register (register_space register_address : Nat) (response : String) :
    Except PyErr PyVal :=
  parse_udp_response response register_space register_address

/-- `SOCBoard.verified_write_register` (lines 91-98) with the received
datagram made an explicit argument.  The code raises `WriteVerificationError`
when the parsed read-back differs from `value`; if the parsed read-back is a
string, building that error message (`f"{read_value:04X}"`) itself raises
`ValueError`. -/
def verified_write_register (register_space register_address value : Nat)
    (response : String) : Except PyErr PyVal :=
  match parse_udp_response response register_space register_address with
  | Except.error e => Except.error e
  | Except.ok read_value =>
    if read_value = PyVal.int value then Except.ok read_value
    else
      match read_value with
      | PyVal.int n => Except.error (PyErr.writeVerification value n)
      | PyVal.str _ => Except.error PyErr.valueError

/-- `SOCBoard.write_register` (lines 84-89) with the received datagram made an
explicit argument: with `verify` it delegates to `verified_write_register` and
returns its value; otherwise it sends a `W` request and returns `None` —
the `response` argument is unused because the code performs no receive on
this path. -/
def write_register (register_space register_address value : Nat)
    (verify : Bool) (response : String) : Except PyErr (Option PyVal) :=
  if verify then
    (verified_write_register register_space register_address value response).map some
  else Except.ok none

/-- Socket effects performed by a register operation: a datagram sent via
`_send_udp_message`, or one blocking receive via `_receive_udp_message`. -/
inductive Effect where
  | send (msg : String)
  | recv
deriving DecidableEq

/-- Effect trace of `verified_write_register` (lines 92-94): send the `V`
request, then one receive. -/
def verified_write_effects (register_space register_address value : Nat) :
    List Effect :=
  [Effect.send (create_udp_message register_space "V" register_address value),
   Effect.recv]

/-- Effect trace of `write_register` (lines 84-89): the `verify` branch
delegates; the non-verify branch sends the `W` request and performs no
receive. -/
def write_register_effects (register_space register_address value : Nat)
    (verify : Bool) : List Effect :=
  if verify then verified_write_effects register_space register_address value
  else [Effect.send (create_udp_message register_space "W" register_address value)]

/-! ## Board info decoder (SOC.py lines 158-168) -/

/-- The attributes set by `SOCBoard._parse_board_info`. -/
structure BoardInfo where
  board_type : String
  has_audio : Bool
  codec : String
  precision : String
  fps : String
  resolution : String
  module_fpga : String
  channels : Nat
  board_name : String
deriving DecidableEq

/-- `SOCBoard._parse_board_info` (lines 158-168).  Each field indexes a Python
list literal with a masked bitfield; an index beyond the list raises
`IndexError`, modelled as `none`.  The `codec` mask (3 bits) can reach 4-7
against a 4-entry table, `module_fpga` (3 bits) 5-7 against 5 entries, and
`board_name` (5 bits) 5-31 against 5 entries. -/
def parse_board_info (info : Nat) : Option BoardInfo :=
  match ["Neither", "Encoder", "Decoder", "Both"][info &&& 3]?,
        ["MPEG2", "H264", "H265", "Reserved"][(info >>> 3) &&& 7]?,
        ["Up to 30", "Up to 60", "Up to 120", "Other"][(info >>> 7) &&& 3]?,
        ["Up to 1080p", "Up to 4K", "Up to 8K", "Other"][(info >>> 9) &&& 3]?,
        ["None", "Artix", "Zynq", "Arria10", "Reserved"][(info >>> 11) &&& 7]?,
        ["S1000", "VTR4000C", "VoIP-X", "VoIP-I", "Reserved"][(info >>> 20) &&& 31]? with
  | some board_type, some codec, some fps, some resolution, some module_fpga,
    some board_name =>
    some ⟨board_type, (info >>> 2) &&& 1 != 0, codec,
          if (info >>> 6) &&& 1 != 0 then "10 Bits" else "8 Bits",
          fps, resolution, module_fpga, min 62 ((info >>> 14) &&& 63), board_name⟩
  | _, _, _, _, _, _ => none

/-! ## Discovery service (SOC.py lines 100-150)

The scan loop is driven by what `receive_sock.recvfrom` yields on each
iteration, together with the clock value observed by the loop guard
`while time.time() - start_time < timeout`.  A trace of `LoopEvent`s records
one entry per iteration: the elapsed time at the guard and the receive
outcome (a timeout exception, a non-timeout socket error, or a datagram with
its sender address).  `SOCBoard(addr)` construction and the heartbeat-disable
send are assumed not to fail; receive-side failures are what the claims are
about. -/

/-- Outcome of one `recvfrom` call inside the discovery loop. -/
inductive RecvOutcome where
  | timeout
  | sockError
  | datagram (data addr : String)
deriving DecidableEq

/-- One iteration of the discovery loop: the elapsed time `time.time() -
start_time` observed by the guard, and what the receive then yields. -/
structure LoopEvent where
  elapsed : Nat
  outcome : RecvOutcome
deriving DecidableEq

/-- A board handle accumulated by discovery: sender address plus the decoded
capability word. -/
structure DiscoveredBoard where
  ip : String
  info : BoardInfo
deriving DecidableEq

/-- The strip set `'{}\r\n '` used on a received discovery datagram
(line 126). -/
def beatStripChars : List Char := ['{', '}', '\r', '\n', ' ']

/-- The body of the discovery loop for one received datagram (lines 126-138):
`dat = data.decode().strip('{}\r\n ').split()[-1]` raises `IndexError` on a
token-less datagram; then, only if `'{BEAT' in data`, the capability word is
parsed with `int(dat, 16)` (`ValueError` on a non-hex token) and decoded with
`_parse_board_info` (`IndexError` on an out-of-range field).  A non-beacon
datagram that survives the `[-1]` indexing is ignored. -/
def process_datagram (data addr : String) : Except PyErr (Option DiscoveredBoard) :=
  match (pySplitWs (pyStrip data beatStripChars)).getLast? with
  | none => Except.error PyErr.indexError
  | some dat =>
    if strContains "\x7bBEAT" data then
      match pyInt16 dat with
      | none => Except.error PyErr.valueError
      | some w =>
        match parse_board_info w with
        | none => Except.error PyErr.indexError
        | some bi => Except.ok (some ⟨addr, bi⟩)
    else Except.ok none

/-- The discovery `while` loop (lines 123-140) over a trace of iterations.
An iteration whose guard sees `elapsed ≥ budget` exits the loop normally;
a `socket.timeout` is caught by the inner handler and the loop continues;
any other exception escapes the loop (second component `some e`) carrying the
boards accumulated so far. -/
def scanLoop (budget : Nat) :
    List LoopEvent → List DiscoveredBoard → List DiscoveredBoard × Option PyErr
  | [], acc => (acc, none)
  | e :: rest, acc =>
    if e.elapsed < budget then
      match e.outcome with
      | RecvOutcome.timeout => scanLoop budget rest acc
      | RecvOutcome.sockError => (acc, some PyErr.socketError)
      | RecvOutcome.datagram data addr =>
        match process_datagram data addr with
        | Except.error ex => (acc, some ex)
        | Except.ok none => scanLoop budget rest acc
        | Except.ok (some brd) => scanLoop budget rest (acc ++ [brd])
    else (acc, none)

instance {ε α : Type} [DecidableEq ε] [DecidableEq α] : DecidableEq (Except ε α) :=
  fun a b =>
    match a, b with
    | Except.error e, Except.error f =>
      decidable_of_iff (e = f) ⟨fun h => by rw [h], fun h => by injection h⟩
    | Except.ok x, Except.ok y =>
      decidable_of_iff (x = y) ⟨fun h => by rw [h], fun h => by injection h⟩
    | Except.error _, Except.ok _ => isFalse (fun h => Except.noConfusion h)
    | Except.ok _, Except.error _ => isFalse (fun h => Except.noConfusion h)

/-- What one call of `discover_boards` produces: the returned value (or the
exception it propagates) and whether each of the two sockets was closed. -/
structure DiscoverOutcome where
  result : Except PyErr (List DiscoveredBoard)
  sendSockClosed : Bool
  recvSockClosed : Bool
deriving DecidableEq

/-- `SOCBoard.discover_boards` (lines 100-150).  Socket setup (lines 107-113)
happens before the `try`: if `receive_sock.bind(('', 1270))` raises —
modelled by the `bindError` flag — the exception propagates and neither
socket is closed.  Otherwise the scan loop runs inside
`try ... except Exception ... finally`: every exception from the loop is
swallowed by the blanket handler, `discovered_boards` is returned as
accumulated, and the `finally` block closes both sockets. -/
def discover_boards (bindError : Bool) (budget : Nat)
    (events : List LoopEvent) : DiscoverOutcome :=
  if bindError then ⟨Except.error PyErr.socketError, false, false⟩
  else
    let r := scanLoop budget events []
    ⟨Except.ok r.1, true, true⟩

/-! ## The board's response datagram -/

/-- Modelled from the spec: the board's reply datagram `{GAPI SS 1 AA VVVV}`
(spec section 6), which echoes the request's space and address with lenfield
`1` and carries the 4-hex-digit value; the board is not part of this client's
source.  A NUL terminator follows as on every datagram of this protocol. -/
def echoResponse (register_space register_address value : Nat) : String :=
  "\x7bGAPI " ++ pyHexUpper 2 register_space ++ " 1 "
    ++ pyHexUpper 2 register_address ++ " " ++ pyHexUpper 4 value ++ "\x7d\x00"

/-! ## Helper lemmas -/

theorem getElem?_isSome_iff {α : Type} (l : List α) (i : Nat) :
    l[i]?.isSome ↔ i < l.length := by
  constructor
  · intro hs
    by_contra hlt
    rw [List.getElem?_eq_none_iff.mpr (by omega)] at hs
    simp at hs
  · intro hlt
    rw [List.getElem?_eq_getElem hlt]
    rfl

/-- Uppercase hex digits, as characters. -/
def isUpperHexDigit (c : Char) : Bool :=
  c.isDigit || ('A' ≤ c && c ≤ 'F')

theorem hexCharsAux_fuel : ∀ n f1 f2, n < f1 → n < f2 →
    hexCharsAux f1 n = hexCharsAux f2 n := by
  intro n
  induction n using Nat.strong_induction_on with
  | _ n ih =>
    intro f1 f2 h1 h2
    cases f1 with
    | zero => omega
    | succ g1 =>
      cases f2 with
      | zero => omega
      | succ g2 =>
        simp only [hexCharsAux]
        by_cases h16 : n < 16
        · rw [if_pos h16, if_pos h16]
        · rw [if_neg h16, if_neg h16]
          have hdiv : n / 16 < n := Nat.div_lt_self (by omega) (by omega)
          rw [ih (n / 16) hdiv g1 g2 (by omega) (by omega)]

theorem hexChars_eq (n : Nat) :
    hexChars n = if n < 16 then [hexDigitUpper n]
      else hexChars (n / 16) ++ [hexDigitUpper (n % 16)] := by
  show hexCharsAux (n + 1) n = _
  simp only [hexCharsAux]
  by_cases h16 : n < 16
  · rw [if_pos h16, if_pos h16]
  · rw [if_neg h16, if_neg h16]
    have hdiv : n / 16 < n := Nat.div_lt_self (by omega) (by omega)
    rw [hexCharsAux_fuel (n / 16) n (n / 16 + 1) hdiv (by omega)]
    rfl

theorem hexChars_length_le : ∀ k n, n < 16 ^ (k + 1) → (hexChars n).length ≤ k + 1 := by
  intro k
  induction k with
  | zero =>
    intro n h
    have h16 : n < 16 := by
      have : (16 : Nat) ^ 1 = 16 := by norm_num
      omega
    rw [hexChars_eq, if_pos h16]
    simp
  | succ k ih =>
    intro n h
    rw [hexChars_eq]
    by_cases h16 : n < 16
    · rw [if_pos h16]; simp
    · rw [if_neg h16]
      have hq : n / 16 < 16 ^ (k + 1) := by
        rw [Nat.div_lt_iff_lt_mul (by omega : 0 < 16)]
        calc n < 16 ^ (k + 2) := h
          _ = 16 ^ (k + 1) * 16 := by ring
      have := ih (n / 16) hq
      simp only [List.length_append, List.length_cons, List.length_nil]
      omega

theorem pyHexUpper_length (w n : Nat) (hn : n < 16 ^ w) (hw : 1 ≤ w) :
    (pyHexUpper w n).length = w := by
  have hle : (hexChars n).length ≤ w := by
    obtain ⟨k, rfl⟩ : ∃ k, w = k + 1 := ⟨w - 1, by omega⟩
    exact hexChars_length_le k n hn
  show (List.replicate (w - (hexChars n).length) '0' ++ hexChars n).length = w
  rw [List.length_append, List.length_replicate]
  omega

theorem hexDigitUpper_valid : ∀ n, n < 16 → isUpperHexDigit (hexDigitUpper n) = true := by
  decide

theorem hexDigVal_hexDigitUpper : ∀ n, n < 16 → hexDigVal (hexDigitUpper n) = n := by
  decide

theorem hexChars_all_valid (n : Nat) : (hexChars n).all isUpperHexDigit = true := by
  induction n using Nat.strong_induction_on with
  | _ n ih =>
    rw [hexChars_eq]
    by_cases h16 : n < 16
    · rw [if_pos h16]
      simp [hexDigitUpper_valid n h16]
    · rw [if_neg h16]
      rw [List.all_append]
      have hd := ih (n / 16) (Nat.div_lt_self (by omega) (by omega))
      have hm := hexDigitUpper_valid (n % 16) (Nat.mod_lt n (by omega))
      simp [hd, hm]

theorem pyHexUpper_all_valid (w n : Nat) :
    (pyHexUpper w n).data.all isUpperHexDigit = true := by
  show (List.replicate (w - (hexChars n).length) '0' ++ hexChars n).all _ = true
  rw [List.all_append]
  have hz : (List.replicate (w - (hexChars n).length) '0').all isUpperHexDigit = true := by
    rw [List.all_eq_true]
    intro c hc
    rw [List.eq_of_mem_replicate hc]
    decide
  simp [hz, hexChars_all_valid n]

theorem hexValFrom_append_digit (a : Nat) (l : List Char) (c : Char) :
    hexValFrom a (l ++ [c]) = 16 * hexValFrom a l + hexDigVal c := by
  unfold hexValFrom
  rw [List.foldl_append]
  rfl

theorem hexValList_hexChars (n : Nat) : hexValList (hexChars n) = n := by
  induction n using Nat.strong_induction_on with
  | _ n ih =>
    rw [hexChars_eq]
    by_cases h16 : n < 16
    · rw [if_pos h16]
      show 16 * 0 + hexDigVal (hexDigitUpper n) = n
      rw [hexDigVal_hexDigitUpper n h16]
      omega
    · rw [if_neg h16]
      show hexValFrom 0 (hexChars (n / 16) ++ [hexDigitUpper (n % 16)]) = n
      rw [hexValFrom_append_digit]
      have hd := ih (n / 16) (Nat.div_lt_self (by omega) (by omega))
      have hm := hexDigVal_hexDigitUpper (n % 16) (Nat.mod_lt n (by omega))
      show 16 * hexValList (hexChars (n / 16)) + _ = n
      rw [hd, hm]
      omega

theorem hexValFrom_replicate_zero : ∀ p, hexValFrom 0 (List.replicate p '0') = 0 := by
  intro p
  induction p with
  | zero => rfl
  | succ p ih =>
    rw [List.replicate_succ]
    show hexValFrom (16 * 0 + hexDigVal '0') (List.replicate p '0') = 0
    have h0 : 16 * 0 + hexDigVal '0' = 0 := by decide
    rw [h0]
    exact ih

theorem pyHexUpper_val (w n : Nat) : hexVal (pyHexUpper w n) = n := by
  show hexValFrom 0 (List.replicate (w - (hexChars n).length) '0' ++ hexChars n) = n
  unfold hexValFrom
  rw [List.foldl_append]
  have hz := hexValFrom_replicate_zero (w - (hexChars n).length)
  unfold hexValFrom at hz
  rw [hz]
  exact hexValList_hexChars n

theorem invalidResponseCheck_iff (parts : List String) (s a : Nat) :
    invalidResponseCheck parts s a = true ↔
      (parts.length ≠ 5
        ∨ strContains "GAPI" (parts.getD 0 "") = false
        ∨ parts.getD 1 "" ≠ pyHexUpper 2 s
        ∨ parts.getD 2 "" ≠ "1"
        ∨ parts.getD 3 "" ≠ pyHexUpper 2 a) := by
  unfold invalidResponseCheck
  simp only [Bool.or_eq_true, bne_iff_ne, Bool.not_eq_true']
  tauto

theorem parse_value_token_ne_invalid (token : String) :
    parse_value_token token ≠ Except.error PyErr.invalidResponse := by
  unfold parse_value_token
  split_ifs <;> simp

theorem parse_board_info_channels (info : Nat) (bi : BoardInfo)
    (h2 : parse_board_info info = some bi) :
    bi.channels = min 62 ((info >>> 14) &&& 63) := by
  rcases h1 : (["Neither", "Encoder", "Decoder", "Both"] : List String)[info &&& 3]?
    with _ | bt
  · simp [parse_board_info, h1] at h2
  rcases hc : (["MPEG2", "H264", "H265", "Reserved"] : List String)[(info >>> 3) &&& 7]?
    with _ | cd
  · simp [parse_board_info, h1, hc] at h2
  rcases hf : (["Up to 30", "Up to 60", "Up to 120", "Other"] : List String)[(info >>> 7) &&& 3]?
    with _ | fp
  · simp [parse_board_info, h1, hc, hf] at h2
  rcases hr : (["Up to 1080p", "Up to 4K", "Up to 8K", "Other"] : List String)[(info >>> 9) &&& 3]?
    with _ | rs
  · simp [parse_board_info, h1, hc, hf, hr] at h2
  rcases hm : (["None", "Artix", "Zynq", "Arria10", "Reserved"] : List String)[(info >>> 11) &&& 7]?
    with _ | mf
  · simp [parse_board_info, h1, hc, hf, hr, hm] at h2
  rcases hb : (["S1000", "VTR4000C", "VoIP-X", "VoIP-I", "Reserved"] : List String)[(info >>> 20) &&& 31]?
    with _ | bn
  · simp [parse_board_info, h1, hc, hf, hr, hm, hb] at h2
  · simp [parse_board_info, h1, hc, hf, hr, hm, hb] at h2
    rw [← h2]

theorem scanLoop_append (b : Nat) (pre rest : List LoopEvent) (acc : List DiscoveredBoard)
    (hlt : ∀ e ∈ pre, e.elapsed < b) (hok : (scanLoop b pre acc).2 = none) :
    scanLoop b (pre ++ rest) acc = scanLoop b rest (scanLoop b pre acc).1 := by
  induction pre generalizing acc with
  | nil => simp [scanLoop]
  | cons e pre ih =>
    have he : e.elapsed < b := hlt e (by simp)
    have hlt' : ∀ x ∈ pre, x.elapsed < b := fun x hx => hlt x (by simp [hx])
    obtain ⟨t, o⟩ := e
    cases o with
    | timeout =>
      have hstep : ∀ l, scanLoop b (⟨t, RecvOutcome.timeout⟩ :: l) acc = scanLoop b l acc := by
        intro l
        simp [scanLoop, he]
      rw [List.cons_append, hstep, hstep]
      rw [hstep] at hok
      exact ih acc hlt' hok
    | sockError =>
      exfalso
      simp [scanLoop, he] at hok
    | datagram data addr =>
      rcases hpd : process_datagram data addr with ex | ob
      · exfalso
        simp [scanLoop, he, hpd] at hok
      · cases ob with
        | none =>
          have hstep : ∀ l,
              scanLoop b (⟨t, RecvOutcome.datagram data addr⟩ :: l) acc = scanLoop b l acc := by
            intro l
            simp [scanLoop, he, hpd]
          rw [List.cons_append, hstep, hstep]
          rw [hstep] at hok
          exact ih acc hlt' hok
        | some brd =>
          have hstep : ∀ l,
              scanLoop b (⟨t, RecvOutcome.datagram data addr⟩ :: l) acc
                = scanLoop b l (acc ++ [brd]) := by
            intro l
            simp [scanLoop, he, hpd]
          rw [List.cons_append, hstep, hstep]
          rw [hstep] at hok
          exact ih (acc ++ [brd]) hlt' hok

/-! ## Claim theorems -/

/-- Claim C1 (code bug).  Decoding the matching echoed response to an encoded
request does not recover the original value: for space 1, address 0x97 and
value 0x0ABC, the echoed response `\x7bGAPI 01 1 97 0ABC\x7d\0` decodes to
0x0AB (171), not 0x0ABC (2748), because `parts[4][:-1]` drops the final hex
digit after `strip("\x7b\x7d\0")` has already removed the terminator. -/
theorem roundtrip_value_mangled :
    parse_udp_response (echoResponse 1 151 2748) 1 151 = Except.ok (PyVal.int 171)
    ∧ (171 : Nat) ≠ 2748 :=
  ⟨by decide, by decide⟩

/-- Claim C2 (corrected).  The board-info decoder is not total: it succeeds
exactly when the codec field (bits 5:3) is below 4, the module_fpga field
(bits 13:11) is below 5 and the board_name field (bits 24:20) is below 5;
whenever it succeeds, channel_count is at most 62. -/
theorem board_info_decode_domain (info : Nat) (h : info < 2 ^ 32) :
    ((parse_board_info info).isSome ↔
      ((info >>> 3) &&& 7 < 4 ∧ (info >>> 11) &&& 7 < 5 ∧ (info >>> 20) &&& 31 < 5))
    ∧ ∀ bi ∈ parse_board_info info, bi.channels ≤ 62 := by
  have hbt : info &&& 3 < 4 := by
    have := Nat.and_le_right (n := info) (m := 3); omega
  have hfp : (info >>> 7) &&& 3 < 4 := by
    have := Nat.and_le_right (n := info >>> 7) (m := 3); omega
  have hrs : (info >>> 9) &&& 3 < 4 := by
    have := Nat.and_le_right (n := info >>> 9) (m := 3); omega
  obtain ⟨bt, h1⟩ := Option.isSome_iff_exists.mp
    ((getElem?_isSome_iff (["Neither", "Encoder", "Decoder", "Both"] : List String)
      (info &&& 3)).mpr (by simpa using hbt))
  obtain ⟨fp, h3⟩ := Option.isSome_iff_exists.mp
    ((getElem?_isSome_iff (["Up to 30", "Up to 60", "Up to 120", "Other"] : List String)
      ((info >>> 7) &&& 3)).mpr (by simpa using hfp))
  obtain ⟨rs, h4⟩ := Option.isSome_iff_exists.mp
    ((getElem?_isSome_iff (["Up to 1080p", "Up to 4K", "Up to 8K", "Other"] : List String)
      ((info >>> 9) &&& 3)).mpr (by simpa using hrs))
  constructor
  · constructor
    · intro hsome
      rcases h2 : (["MPEG2", "H264", "H265", "Reserved"] : List String)[(info >>> 3) &&& 7]?
        with _ | cd
      · exfalso
        simp [parse_board_info, h1, h2] at hsome
      rcases h5 : (["None", "Artix", "Zynq", "Arria10", "Reserved"] : List String)[(info >>> 11) &&& 7]?
        with _ | mf
      · exfalso
        simp [parse_board_info, h1, h2, h3, h4, h5] at hsome
      rcases h6 : (["S1000", "VTR4000C", "VoIP-X", "VoIP-I", "Reserved"] : List String)[(info >>> 20) &&& 31]?
        with _ | bn
      · exfalso
        simp [parse_board_info, h1, h2, h3, h4, h5, h6] at hsome
      refine ⟨?_, ?_, ?_⟩
      · have hs : ((["MPEG2", "H264", "H265", "Reserved"] : List String)[(info >>> 3) &&& 7]?).isSome := by
          rw [h2]; rfl
        simpa using (getElem?_isSome_iff _ _).mp hs
      · have hs : ((["None", "Artix", "Zynq", "Arria10", "Reserved"] : List String)[(info >>> 11) &&& 7]?).isSome := by
          rw [h5]; rfl
        simpa using (getElem?_isSome_iff _ _).mp hs
      · have hs : ((["S1000", "VTR4000C", "VoIP-X", "VoIP-I", "Reserved"] : List String)[(info >>> 20) &&& 31]?).isSome := by
          rw [h6]; rfl
        simpa using (getElem?_isSome_iff _ _).mp hs
    · rintro ⟨hc, hm, hb⟩
      obtain ⟨cd, h2⟩ := Option.isSome_iff_exists.mp
        ((getElem?_isSome_iff (["MPEG2", "H264", "H265", "Reserved"] : List String)
          ((info >>> 3) &&& 7)).mpr (by simpa using hc))
      obtain ⟨mf, h5⟩ := Option.isSome_iff_exists.mp
        ((getElem?_isSome_iff (["None", "Artix", "Zynq", "Arria10", "Reserved"] : List String)
          ((info >>> 11) &&& 7)).mpr (by simpa using hm))
      obtain ⟨bn, h6⟩ := Option.isSome_iff_exists.mp
        ((getElem?_isSome_iff (["S1000", "VTR4000C", "VoIP-X", "VoIP-I", "Reserved"] : List String)
          ((info >>> 20) &&& 31)).mpr (by simpa using hb))
      simp [parse_board_info, h1, h2, h3, h4, h5, h6]
  · intro bi hbi
    rw [Option.mem_def] at hbi
    rw [parse_board_info_channels info bi hbi]
    exact Nat.min_le_left _ _

/-- Witness for C2: the decoder succeeds on the concrete word 0. -/
theorem board_info_decode_domain_witness : (parse_board_info 0).isSome = true :=
  (board_info_decode_domain 0 (by norm_num)).1.mpr ⟨by decide, by decide, by decide⟩

/-- Counterexample for C2: capability word 32 puts 4 in the 3-bit codec field,
which indexes past the 4-entry codec table, so decoding fails. -/
theorem board_info_lookup_oob : parse_board_info 32 = none := by decide

/-- Claim C3 (corrected).  `_parse_udp_response` fails with
`InvalidResponseError` exactly when the whitespace token count is not 5,
token 0 does not CONTAIN `"GAPI"` as a substring (the code uses `in`, not
equality), token 1 differs from the 2-digit uppercase hex of the expected
space, token 2 is not `"1"`, or token 3 differs from the 2-digit uppercase
hex of the expected address; on any such mismatch no value is returned. -/
theorem parse_response_invalid_iff (response : String) (space addr : Nat) :
    parse_udp_response response space addr = Except.error PyErr.invalidResponse ↔
      ((pySplitWs (pyStrip response responseStripChars)).length ≠ 5
        ∨ strContains "GAPI"
            ((pySplitWs (pyStrip response responseStripChars)).getD 0 "") = false
        ∨ (pySplitWs (pyStrip response responseStripChars)).getD 1 "" ≠ pyHexUpper 2 space
        ∨ (pySplitWs (pyStrip response responseStripChars)).getD 2 "" ≠ "1"
        ∨ (pySplitWs (pyStrip response responseStripChars)).getD 3 "" ≠ pyHexUpper 2 addr) := by
  unfold parse_udp_response
  by_cases hc : invalidResponseCheck (pySplitWs (pyStrip response responseStripChars))
      space addr = true
  · rw [if_pos hc]
    exact iff_of_true rfl ((invalidResponseCheck_iff _ _ _).mp hc)
  · rw [if_neg hc]
    exact iff_of_false (parse_value_token_ne_invalid _)
      (fun hr => hc ((invalidResponseCheck_iff _ _ _).mpr hr))

/-- Counterexample for C3: a response whose first token is `"XGAPI"` — not the
literal `"GAPI"` — passes validation, because the code tests substring
containment; the claim predicts an InvalidResponseError here. -/
theorem parse_accepts_gapi_superstring :
    (pySplitWs (pyStrip "\x7bXGAPI 01 1 97 0ABC\x7d\x00" responseStripChars)).getD 0 ""
      = "XGAPI"
    ∧ ("XGAPI" : String) ≠ "GAPI"
    ∧ parse_udp_response "\x7bXGAPI 01 1 97 0ABC\x7d\x00" 1 151
        = Except.ok (PyVal.int 171) :=
  ⟨by decide, by decide, by decide⟩

/-- Claim C4 (code bug).  A verified write whose echoed response carries the
written value unchanged still raises `WriteVerificationError`: writing 0x0AB0
(2736) to space 1, address 0x97, the echoed response `\x7bGAPI 01 1 97 0AB0\x7d\0`
is decoded as 0x00AB (171) because the parser drops the last hex digit, so the
comparison fails and the error cites 2736 and 171. -/
theorem verified_write_rejects_unchanged_echo :
    verified_write_register 1 151 2736 (echoResponse 1 151 2736)
      = Except.error (PyErr.writeVerification 2736 171)
    ∧ parse_udp_response (echoResponse 1 151 2736) 1 151 = Except.ok (PyVal.int 171) :=
  ⟨by decide, by decide⟩

/-- Claim C5 (corrected).  A non-verified `write_register` sends exactly one
`W` request datagram and returns nothing, but performs NO receive: the
board's acknowledgment, if any, is never consumed. -/
theorem nonverified_write_no_drain (space addr value : Nat) (response : String) :
    write_register_effects space addr value false
      = [Effect.send (create_udp_message space "W" addr value)]
    ∧ write_register space addr value false response = Except.ok none
    ∧ (write_register_effects space addr value false).count Effect.recv = 0 :=
  ⟨rfl, rfl, by simp [write_register_effects, List.count_cons]⟩

/-- Counterexample for C5: the non-verified write consumes zero reply
datagrams, not exactly one. -/
theorem nonverified_write_ack_not_consumed :
    (write_register_effects 1 151 2748 false).count Effect.recv ≠ 1 := by decide

/-- Claim C6 (corrected).  For inputs in range, `_create_udp_message` produces
exactly `\x7bGAPI SS 2 C AA VVVV\x7d` — SS/AA the 2-digit and VVVV the 4-digit
zero-padded uppercase hex of space, address and value — FOLLOWED BY a NUL
terminator byte; a read request formats the value field as `0000`. -/
theorem encode_request_exact (space addr value : Nat) (command : String)
    (h1 : space ≤ 255) (h2 : addr ≤ 255) (h3 : value ≤ 65535) :
    create_udp_message space command addr value =
      "\x7bGAPI " ++ pyHexUpper 2 space ++ " 2 " ++ command ++ " "
        ++ pyHexUpper 2 addr ++ " " ++ pyHexUpper 4 value ++ "\x7d\x00"
    ∧ (pyHexUpper 2 space).length = 2
    ∧ (pyHexUpper 2 addr).length = 2
    ∧ (pyHexUpper 4 value).length = 4
    ∧ (pyHexUpper 2 space).data.all isUpperHexDigit = true
    ∧ (pyHexUpper 2 addr).data.all isUpperHexDigit = true
    ∧ (pyHexUpper 4 value).data.all isUpperHexDigit = true
    ∧ hexVal (pyHexUpper 2 space) = space
    ∧ hexVal (pyHexUpper 2 addr) = addr
    ∧ hexVal (pyHexUpper 4 value) = value
    ∧ read_register_request space addr = create_udp_message space "R" addr 0
    ∧ pyHexUpper 4 0 = "0000" := by
  have p2 : (16 : Nat) ^ 2 = 256 := by norm_num
  have p4 : (16 : Nat) ^ 4 = 65536 := by norm_num
  refine ⟨rfl,
    pyHexUpper_length 2 space (by omega) (by omega),
    pyHexUpper_length 2 addr (by omega) (by omega),
    pyHexUpper_length 4 value (by omega) (by omega),
    pyHexUpper_all_valid 2 space,
    pyHexUpper_all_valid 2 addr,
    pyHexUpper_all_valid 4 value,
    pyHexUpper_val 2 space,
    pyHexUpper_val 2 addr,
    pyHexUpper_val 4 value,
    rfl,
    by decide⟩

/-- Witness for C6 at space 1, address 0x97, value 0x0ABC and command V. -/
theorem encode_request_exact_witness :
    create_udp_message 1 "V" 151 2748 = "\x7bGAPI 01 2 V 97 0ABC\x7d\x00"
    ∧ hexVal (pyHexUpper 4 2748) = 2748 := by
  obtain ⟨e1, -, -, -, -, -, -, -, -, ev, -, -⟩ :=
    encode_request_exact 1 151 2748 "V" (by decide) (by decide) (by decide)
  exact ⟨e1, ev⟩

/-- Counterexample for C6: the encoded request is not the bare bracketed
string — a NUL terminator byte follows the closing bracket. -/
theorem encode_request_has_terminator :
    create_udp_message 1 "R" 151 0 ≠ "\x7bGAPI 01 2 R 97 0000\x7d" := by decide

/-- Claim C7 (confirmed).  Whenever the board-info decoder succeeds on a
32-bit capability word, the decoded channel count equals
`min 62 ((word >>> 14) &&& 63)` and is therefore always at most 62; a raw
6-bit field value of 63 collapses to 62. -/
theorem channel_count_clamped (info : Nat) (bi : BoardInfo)
    (h : info < 2 ^ 32) (h2 : parse_board_info info = some bi) :
    bi.channels = min 62 ((info >>> 14) &&& 63) ∧ bi.channels ≤ 62 := by
  have hc := parse_board_info_channels info bi h2
  exact ⟨hc, hc ▸ Nat.min_le_left _ _⟩

/-- Witness for C7 at the word 1032192 = 63 <<< 14, whose raw 6-bit channel
field is 63: the decoded channel count is clamped to 62. -/
theorem channel_count_clamped_witness :
    (⟨"Neither", false, "MPEG2", "8 Bits", "Up to 30", "Up to 1080p", "None", 62,
        "S1000"⟩ : BoardInfo).channels = min 62 ((1032192 >>> 14) &&& 63)
    ∧ (⟨"Neither", false, "MPEG2", "8 Bits", "Up to 30", "Up to 1080p", "None", 62,
        "S1000"⟩ : BoardInfo).channels ≤ 62 :=
  channel_count_clamped 1032192 _ (by norm_num) (by decide)

/-- Claim C8 (corrected).  In the discovery loop: a per-receive timeout never
terminates the scan (the loop just continues); the loop exits normally exactly
when the guard sees the elapsed time reach the budget; a received datagram
without the `\x7bBEAT` marker that yields at least one whitespace token is
ignored and the loop continues; but a datagram yielding NO token makes
`split()[-1]` raise IndexError, which ends the scan early. -/
theorem discovery_loop_steps :
    (∀ (b : Nat) (e : LoopEvent) (rest : List LoopEvent) (acc : List DiscoveredBoard),
        e.elapsed < b → e.outcome = RecvOutcome.timeout →
        scanLoop b (e :: rest) acc = scanLoop b rest acc)
    ∧ (∀ (b : Nat) (e : LoopEvent) (rest : List LoopEvent) (acc : List DiscoveredBoard),
        b ≤ e.elapsed → scanLoop b (e :: rest) acc = (acc, none))
    ∧ (∀ (b : Nat) (e : LoopEvent) (rest : List LoopEvent) (acc : List DiscoveredBoard)
        (data addr : String),
        e.elapsed < b → e.outcome = RecvOutcome.datagram data addr →
        strContains "\x7bBEAT" data = false →
        pySplitWs (pyStrip data beatStripChars) ≠ [] →
        scanLoop b (e :: rest) acc = scanLoop b rest acc)
    ∧ (∀ (b : Nat) (e : LoopEvent) (rest : List LoopEvent) (acc : List DiscoveredBoard)
        (data addr : String),
        e.elapsed < b → e.outcome = RecvOutcome.datagram data addr →
        pySplitWs (pyStrip data beatStripChars) = [] →
        scanLoop b (e :: rest) acc = (acc, some PyErr.indexError)) := by
  refine ⟨?_, ?_, ?_, ?_⟩
  · intro b e rest acc he ho
    obtain ⟨t, o⟩ := e
    cases ho
    simp [scanLoop, he]
  · intro b e rest acc he
    obtain ⟨t, o⟩ := e
    simp only [scanLoop]
    rw [if_neg (by simp at he ⊢; omega)]
  · intro b e rest acc data addr he ho hbeat htok
    obtain ⟨t, o⟩ := e
    cases ho
    have hpd : process_datagram data addr = Except.ok none := by
      obtain ⟨dat, hlast⟩ := Option.isSome_iff_exists.mp
        (List.getLast?_isSome.mpr htok)
      unfold process_datagram
      rw [hlast, hbeat]
      simp
    simp [scanLoop, he, hpd]
  · intro b e rest acc data addr he ho htok
    obtain ⟨t, o⟩ := e
    cases ho
    have hpd : process_datagram data addr = Except.error PyErr.indexError := by
      unfold process_datagram
      rw [htok]
      rfl
    simp [scanLoop, he, hpd]

/-- Witness for C8: a timeout at elapsed 0 continues the loop; a timeout seen
at elapsed 9 of a 5-second budget exits via the guard; the tokenful non-beacon
datagram "hello" is ignored. -/
theorem discovery_loop_steps_witness :
    scanLoop 5 [⟨0, RecvOutcome.timeout⟩] [] = scanLoop 5 [] []
    ∧ scanLoop 5 [⟨9, RecvOutcome.timeout⟩] [] = ([], none)
    ∧ scanLoop 5 [⟨0, RecvOutcome.datagram "hello" "10.0.0.3"⟩] [] = scanLoop 5 [] [] :=
  ⟨discovery_loop_steps.1 5 ⟨0, RecvOutcome.timeout⟩ [] [] (by decide) rfl,
   discovery_loop_steps.2.1 5 ⟨9, RecvOutcome.timeout⟩ [] [] (by decide),
   discovery_loop_steps.2.2.1 5 ⟨0, RecvOutcome.datagram "hello" "10.0.0.3"⟩ [] []
     "hello" "10.0.0.3" (by decide) rfl (by decide) (by decide)⟩

/-- Counterexample for C8: the token-less datagram `\x7b\x7d` does not carry
`\x7bBEAT`, yet it is not ignored — it aborts the scan, so the valid beacon
right after it is never processed, while alone that beacon yields a board. -/
theorem tokenless_datagram_aborts_scan :
    discover_boards false 5 [⟨0, RecvOutcome.datagram "\x7b\x7d" "10.0.0.9"⟩,
        ⟨1, RecvOutcome.datagram "\x7bBEAT 1\x7d" "10.0.0.2"⟩]
      = ⟨Except.ok [], true, true⟩
    ∧ discover_boards false 5 [⟨1, RecvOutcome.datagram "\x7bBEAT 1\x7d" "10.0.0.2"⟩]
      = ⟨Except.ok [⟨"10.0.0.2", ⟨"Encoder", false, "MPEG2", "8 Bits", "Up to 30",
          "Up to 1080p", "None", 0, "S1000"⟩⟩], true, true⟩ :=
  ⟨by decide, by decide⟩

/-- Claim C9 (corrected).  A non-timeout socket error during the scan loop is
caught, ends the scan early, and `discover_boards` still returns the boards
discovered before the error, with both sockets closed by the `finally`
block — but socket setup happens before the `try`, so a bind failure on the
response port propagates with neither socket closed (see the
counterexample). -/
theorem discovery_socket_error_graceful :
    (∀ (b : Nat) (es : List LoopEvent),
        (discover_boards false b es).sendSockClosed = true
        ∧ (discover_boards false b es).recvSockClosed = true)
    ∧ (∀ (b t : Nat) (pre post : List LoopEvent),
        (∀ e ∈ pre, e.elapsed < b) → (scanLoop b pre []).2 = none → t < b →
        discover_boards false b (pre ++ ⟨t, RecvOutcome.sockError⟩ :: post)
          = ⟨Except.ok (scanLoop b pre []).1, true, true⟩) := by
  constructor
  · intro b es
    exact ⟨rfl, rfl⟩
  · intro b t pre post hlt hok ht
    show (⟨Except.ok (scanLoop b (pre ++ ⟨t, RecvOutcome.sockError⟩ :: post) []).1,
      true, true⟩ : DiscoverOutcome) = _
    rw [scanLoop_append b pre (⟨t, RecvOutcome.sockError⟩ :: post) [] hlt hok]
    simp [scanLoop, ht]

/-- Witness for C9: a socket error after one good beacon returns that board. -/
theorem discovery_socket_error_graceful_witness :
    discover_boards false 5 ([⟨0, RecvOutcome.datagram "\x7bBEAT 1\x7d" "10.0.0.1"⟩]
        ++ ⟨1, RecvOutcome.sockError⟩
          :: [⟨2, RecvOutcome.datagram "\x7bBEAT 1\x7d" "10.0.0.2"⟩])
      = ⟨Except.ok [⟨"10.0.0.1", ⟨"Encoder", false, "MPEG2", "8 Bits", "Up to 30",
          "Up to 1080p", "None", 0, "S1000"⟩⟩], true, true⟩ := by
  have h := discovery_socket_error_graceful.2 5 1
    [⟨0, RecvOutcome.datagram "\x7bBEAT 1\x7d" "10.0.0.1"⟩]
    [⟨2, RecvOutcome.datagram "\x7bBEAT 1\x7d" "10.0.0.2"⟩]
    (by decide) (by decide) (by decide)
  exact h

/-- Counterexample for C9: when binding the response socket fails — which
happens before the `try`/`finally` — the exception propagates and neither
discovery socket is closed, so "closed on every exit path" fails. -/
theorem discovery_setup_leak :
    (discover_boards true 5 []).sendSockClosed = false
    ∧ (discover_boards true 5 []).recvSockClosed = false
    ∧ (discover_boards true 5 []).result = Except.error PyErr.socketError :=
  ⟨rfl, rfl, rfl⟩

/-- Claim C10 (confirmed).  Every exception raised by the scan body for a
received datagram — IndexError from a token-less datagram, ValueError from a
`\x7bBEAT` datagram with a non-hex last token, IndexError from board-info
decoding — is swallowed by the blanket handler: the scan ends early and
`discover_boards` still returns the boards accumulated before the bad
datagram, never propagating the exception. -/
theorem scan_body_swallows_exceptions
    (b t : Nat) (pre post : List LoopEvent) (data addr : String) (ex : PyErr)
    (hlt : ∀ e ∈ pre, e.elapsed < b) (hok : (scanLoop b pre []).2 = none)
    (ht : t < b) (hpd : process_datagram data addr = Except.error ex) :
    discover_boards false b (pre ++ ⟨t, RecvOutcome.datagram data addr⟩ :: post)
      = ⟨Except.ok (scanLoop b pre []).1, true, true⟩ := by
  show (⟨Except.ok (scanLoop b (pre ++ ⟨t, RecvOutcome.datagram data addr⟩ :: post) []).1,
    true, true⟩ : DiscoverOutcome) = _
  rw [scanLoop_append b pre (⟨t, RecvOutcome.datagram data addr⟩ :: post) [] hlt hok]
  simp [scanLoop, ht, hpd]

/-- Witness for C10: after one good beacon, the beacon `\x7bBEAT ZZ\x7d` with a
non-hex capability token raises ValueError inside the loop; the scan stops
(the later good beacon is not processed) and the first board is returned. -/
theorem scan_body_swallows_exceptions_witness :
    discover_boards false 5 [⟨0, RecvOutcome.datagram "\x7bBEAT 1\x7d" "10.0.0.1"⟩,
        ⟨1, RecvOutcome.datagram "\x7bBEAT ZZ\x7d" "10.0.0.9"⟩,
        ⟨2, RecvOutcome.datagram "\x7bBEAT 1\x7d" "10.0.0.2"⟩]
      = ⟨Except.ok [⟨"10.0.0.1", ⟨"Encoder", false, "MPEG2", "8 Bits", "Up to 30",
          "Up to 1080p", "None", 0, "S1000"⟩⟩], true, true⟩ := by
  have h := scan_body_swallows_exceptions 5 1
    [⟨0, RecvOutcome.datagram "\x7bBEAT 1\x7d" "10.0.0.1"⟩]
    [⟨2, RecvOutcome.datagram "\x7bBEAT 1\x7d" "10.0.0.2"⟩]
    "\x7bBEAT ZZ\x7d" "10.0.0.9" PyErr.valueError
    (by decide) (by decide) (by decide) (by decide)
  exact h

end SOC
